import Mathlib

/-!
Verification development for the prompt-composer repository.

The repository ships two thin Python binding packages
(`src/python/prompt_composer/__init__.py` and
`src/python/system_prompt_composer/__init__.py`) that delegate to a native
composition engine (`_prompt_composer` / `_system_prompt_composer`) whose
source is not part of the checkout.  The binding layer is embedded directly
from the Python source; the composition engine (module repository, tool
registry, selector, composer, cache layer) is modelled from the
specification, as flagged on each such definition.
-/

namespace PromptComposer

/-- Modelled from the spec (section 4.3 step 1): the ordered task-complexity
tiers Low, Medium, High.  The engine source is not in the checkout. -/
inductive Complexity
| low
| medium
| high
deriving DecidableEq, Repr

/-- Numeric rank of a complexity tier, used for the minimum-tier comparison. -/
def Complexity.rank : Complexity → Nat
  | .low => 0
  | .medium => 1
  | .high => 2

/-- Modelled from the spec (section 3): a module is either a Domain module or
a Behavior module. -/
inductive ModuleKind
| domain
| behavior
deriving DecidableEq, Repr

/-- Modelled from the spec (section 3): a trigger predicate is a conjunction
of a keyword-set clause, a minimum task-complexity tier, required tool
capability tags, and required session-state conditions. -/
structure TriggerPredicate where
  keywords : List String
  minComplexity : Complexity
  requiredTags : List String
  sessionConditions : List (String × String)
deriving DecidableEq, Repr

/-- Modelled from the spec (section 3): a prompt module; identity is the
relative path, with a kind, trigger predicate, integer priority (lower sorts
first) and opaque markdown body. -/
structure PromptModule where
  path : String
  kind : ModuleKind
  trigger : TriggerPredicate
  priority : Int
  body : String
deriving DecidableEq, Repr

/-- Modelled from the spec (section 3): a server descriptor from the MCP
configuration. -/
structure ServerDescriptor where
  name : String
  command : String
  args : List String
deriving DecidableEq, Repr

/-- Modelled from the spec (section 3): a tool inventory maps tool names to
capability tags. -/
abbrev ToolInventory : Type := List (String × List String)

/-- Modelled from the spec (sections 3 and 4.2): the registry view pairs each
configured server with its inventory, or with none when discovery failed. -/
abbrev RegistryView : Type := List (ServerDescriptor × Option ToolInventory)

/-- Modelled from the spec (section 3): a composition request with user
prompt, ordered server configuration and opaque session state. -/
structure CompositionRequest where
  userPrompt : String
  mcpConfig : List ServerDescriptor
  sessionState : List (String × String)
deriving DecidableEq, Repr

/-- Modelled from the spec (section 3): the composition result. -/
structure CompositionResult where
  systemPrompt : String
  modulesUsed : List String
  cacheHit : Bool
deriving DecidableEq, Repr

/-- Modelled from the spec (section 4.3 step 1): the multi-step indicator
keywords of the complexity heuristic (exact word list is an implementation
choice left open by the spec). -/
def multiStepKeywords : List String := ["plan", "step", "refactor", "implement"]

/-- Does the character list `needle` occur inside `hay`?  (Structural
recursion, so concrete instances evaluate in the kernel.) -/
def occursInChars (needle : List Char) : List Char → Bool
  | [] => needle.isEmpty
  | c :: t => needle.isPrefixOf (c :: t) || occursInChars needle t

/-- Does the string `needle` occur inside `hay`? -/
def occursIn (needle hay : String) : Bool := occursInChars needle.data hay.data

/-- Split a character list at every occurrence of the separator character. -/
def splitOnChar (sep : Char) : List Char → List (List Char)
  | [] => [[]]
  | c :: t =>
    if c = sep then [] :: splitOnChar sep t
    else
      match splitOnChar sep t with
      | [] => [[c]]
      | g :: gs => (c :: g) :: gs

/-- Break a character list at its first colon, when one exists. -/
def breakAtColon : List Char → Option (List Char × List Char)
  | [] => none
  | c :: t =>
    if c = ':' then some ([], t)
    else
      match breakAtColon t with
      | some (k, v) => some (c :: k, v)
      | none => none

/-- Drop leading and trailing whitespace of a character list. -/
def trimChars (l : List Char) : List Char :=
  ((l.dropWhile Char.isWhitespace).reverse.dropWhile Char.isWhitespace).reverse

/-- Parse an unsigned decimal numeral. -/
def parseNatAux : List Char → Nat → Option Nat
  | [], acc => some acc
  | c :: t, acc =>
    if c.isDigit then parseNatAux t (acc * 10 + (c.toNat - 48)) else none

/-- Parse a decimal integer with an optional leading minus sign. -/
def parseIntStr (s : String) : Option Int :=
  match s.data with
  | [] => none
  | '-' :: t =>
    match t with
    | [] => none
    | _ => (parseNatAux t 0).map (fun n => -(n : Int))
  | l => (parseNatAux l 0).map (fun n => (n : Int))

/-- Modelled from the spec (section 4.3 step 1): deterministic complexity
heuristic, a pure function of the user-prompt text only (length and
multi-step indicator keywords; thresholds are an implementation choice). -/
def classifyComplexity (userPrompt : String) : Complexity :=
  if multiStepKeywords.any (fun k => occursIn k userPrompt) || userPrompt.length > 200 then
    Complexity.high
  else if userPrompt.length > 80 then Complexity.medium
  else Complexity.low

/-- Capability tags offered by one tool inventory. -/
def invTags (inv : ToolInventory) : List String := (inv.map Prod.snd).flatten

/-- Modelled from the spec (section 4.3 step 2): the capability tags
aggregated from all available (non-absent) inventories of the registry
view. -/
def availableTags (reg : RegistryView) : List String :=
  ((reg.filterMap Prod.snd).map invTags).flatten

/-- Modelled from the spec (section 4.3 step 2): a session-state condition is
met when the state holds exactly that key/value pair; an absent key is
condition-not-met, never an error. -/
def sessionCondMet (st : List (String × String)) (c : String × String) : Bool :=
  st.any (fun kv => kv.1 == c.1 && kv.2 == c.2)

/-- Modelled from the spec (section 4.3 step 2): conjunctive trigger
evaluation.  The keyword clause is met when the keyword set is empty or some
keyword occurs in the user prompt; the tier clause compares ranks; the tags
clause requires every required tag among the aggregated available tags; every
session condition must be met. -/
def triggers (m : PromptModule) (userPrompt : String) (tier : Complexity)
    (tags : List String) (st : List (String × String)) : Bool :=
  (m.trigger.keywords.isEmpty || m.trigger.keywords.any (fun k => occursIn k userPrompt))
    && decide (m.trigger.minComplexity.rank ≤ tier.rank)
    && m.trigger.requiredTags.all (fun t => tags.contains t)
    && m.trigger.sessionConditions.all (fun c => sessionCondMet st c)

/-- Rank used for the Behavior-before-Domain ordering rule. -/
def kindRank : ModuleKind → Nat
  | .behavior => 0
  | .domain => 1

/-- Modelled from the spec (section 4.3 step 3): the sort key — kind rank
first (Behavior before Domain), then ascending priority, then path as the
deterministic tie-break — compared lexicographically. -/
def moduleKey (m : PromptModule) : Nat ×ₗ (Int ×ₗ String) :=
  toLex (kindRank m.kind, toLex (m.priority, m.path))

/-- The selector's ordering relation on modules: comparison of sort keys. -/
def moduleLE (a b : PromptModule) : Prop := moduleKey a ≤ moduleKey b

instance : DecidableRel moduleLE :=
  fun a b => inferInstanceAs (Decidable (moduleKey a ≤ moduleKey b))

instance : IsTotal PromptModule moduleLE := ⟨fun a b => le_total (moduleKey a) (moduleKey b)⟩

instance : IsTrans PromptModule moduleLE := ⟨fun _ _ _ h h' => le_trans h h'⟩

/-- Modelled from the spec (section 4.3): the selector.  It classifies the
request's complexity, filters the snapshot to the triggered modules, and
sorts them by the kind/priority/path key. -/
def select (snapshot : List PromptModule) (reg : RegistryView) (req : CompositionRequest) :
    List PromptModule :=
  List.insertionSort moduleLE
    (snapshot.filter (fun m =>
      triggers m req.userPrompt (classifyComplexity req.userPrompt) (availableTags reg)
        req.sessionState))

/-- Remove trailing whitespace characters from a string. -/
def trimRightStr (s : String) : String :=
  ⟨(s.data.reverse.dropWhile Char.isWhitespace).reverse⟩

/-- Modelled from the spec (section 4.4): the composer concatenates the
module bodies in the selector's order, each trimmed of trailing whitespace
and otherwise untouched, separated by a single blank line. -/
def render : List PromptModule → String
  | [] => ""
  | [m] => trimRightStr m.body
  | m :: m2 :: ms => trimRightStr m.body ++ "\n\n" ++ render (m2 :: ms)

/-- Modelled from the spec (sections 2 and 4.4): the uncached composition of
a request against a repository snapshot and registry view. -/
def compose (snapshot : List PromptModule) (reg : RegistryView) (req : CompositionRequest) :
    CompositionResult :=
  let mods := select snapshot reg req
  { systemPrompt := render mods
    modulesUsed := mods.map PromptModule.path
    cacheHit := false }

/-- Modelled from the spec (section 6): parse a complexity tier name of the
metadata header. -/
def parseComplexity : String → Option Complexity
  | "low" => some Complexity.low
  | "medium" => some Complexity.medium
  | "high" => some Complexity.high
  | _ => none

/-- Split a comma-separated metadata value into trimmed items. -/
def splitCSV (v : String) : List String :=
  (splitOnChar ',' v.data).map (fun g => ⟨trimChars g⟩)

/-- Parse a session-state condition of the form key=value. -/
def parseCond (v : String) : Option (String × String) :=
  match splitOnChar '=' v.data with
  | [k, w] => some (⟨k⟩, ⟨w⟩)
  | _ => none

/-- Parse one metadata header line of the form key: value. -/
def parseHeaderLine (l : String) : Option (String × String) :=
  match breakAtColon l.data with
  | some (k, ' ' :: v) => some (⟨k⟩, ⟨v⟩)
  | _ => none

/-- Modelled from the spec (sections 4.1 and 6): interpret the key/value
pairs of a metadata header as a trigger predicate and priority, failing on an
unknown key or an unparsable value. -/
def parseFields : List (String × String) → TriggerPredicate × Int →
    Option (TriggerPredicate × Int)
  | [], acc => some acc
  | (k, v) :: rest, (tp, pr) =>
    if k = "keywords" then parseFields rest ({ tp with keywords := splitCSV v }, pr)
    else if k = "tags" then parseFields rest ({ tp with requiredTags := splitCSV v }, pr)
    else if k = "complexity" then
      match parseComplexity v with
      | some c => parseFields rest ({ tp with minComplexity := c }, pr)
      | none => none
    else if k = "when" then
      match parseCond v with
      | some c => parseFields rest ({ tp with sessionConditions := tp.sessionConditions ++ [c] }, pr)
      | none => none
    else if k = "priority" then
      match parseIntStr v with
      | some n => parseFields rest (tp, n)
      | none => none
    else none

/-- Modelled from the spec (sections 4.1 and 6): parse one markdown file into
a prompt module — a leading metadata block (key: value lines up to the first
blank line) followed by the free-form body; any malformed header line or
field value makes the whole file unparsable (none). -/
def parseModule (kind : ModuleKind) (path : String) (content : String) :
    Option PromptModule :=
  let lines : List String := (splitOnChar '\n' content.data).map (fun l => ⟨l⟩)
  let headerLines := lines.takeWhile (fun l => l ≠ "")
  let bodyLines := (lines.dropWhile (fun l => l ≠ "")).drop 1
  match headerLines.mapM parseHeaderLine with
  | none => none
  | some kvs =>
    match parseFields kvs (⟨[], Complexity.low, [], []⟩, 100) with
    | none => none
    | some (tp, pr) =>
      some { path := path, kind := kind, trigger := tp, priority := pr
             body := String.intercalate "\n" bodyLines }

/-- Modelled from the spec (section 4.1): the on-disk content of one prompts
directory: the files (relative path, raw content) of the domains and
behaviors subtrees, in scan order. -/
structure DiskContent where
  domainFiles : List (String × String)
  behaviorFiles : List (String × String)
deriving DecidableEq, Repr

/-- Modelled from the spec (section 4.1): load one subtree, keeping every
file that parses and silently dropping each file that fails to parse. -/
def loadSubtree (kind : ModuleKind) (files : List (String × String)) : List PromptModule :=
  files.filterMap (fun f => parseModule kind f.1 f.2)

/-- Modelled from the spec (section 4.1): load a repository snapshot from the
two fixed subtrees; a parse failure on one file degrades to module
unavailable and never aborts the load (the function is total). -/
def loadRepository (d : DiskContent) : List PromptModule :=
  loadSubtree ModuleKind.domain d.domainFiles ++ loadSubtree ModuleKind.behavior d.behaviorFiles

/-- The opposite subtree kind. -/
def otherKind : ModuleKind → ModuleKind
  | ModuleKind.domain => ModuleKind.behavior
  | ModuleKind.behavior => ModuleKind.domain

/-- A prompts directory assembled around one designated spot: the subtree of
kind k holds pre, then the files mid under scrutiny, then post, while the
opposite subtree holds other.  Lets one statement range over a malformed
file in either subtree. -/
def diskSplit (k : ModuleKind) (pre post other mid : List (String × String)) : DiskContent :=
  match k with
  | ModuleKind.domain => ⟨pre ++ mid ++ post, other⟩
  | ModuleKind.behavior => ⟨other, pre ++ mid ++ post⟩

/-- Modelled from the spec (sections 4.2 and 9): the three-valued outcome of
one server's discovery handshake. -/
inductive DiscoveryOutcome
| inventory (inv : ToolInventory)
| absentTimeout
| absentError
deriving DecidableEq

/-- The inventory recorded for one discovery outcome: present on success,
absent on timeout or error. -/
def outcomeInv : DiscoveryOutcome → Option ToolInventory
  | DiscoveryOutcome.inventory inv => some inv
  | DiscoveryOutcome.absentTimeout => none
  | DiscoveryOutcome.absentError => none

/-- Modelled from the spec (section 4.2): refresh queries each configured
server independently; a failed or timed-out discovery yields an absent
inventory for that server only.  The discovery oracle stands for the
external server processes. -/
def refresh (servers : List ServerDescriptor)
    (discover : ServerDescriptor → DiscoveryOutcome) : RegistryView :=
  servers.map (fun s => (s, outcomeInv (discover s)))

/-- A discovery oracle equal to the given one except that server s succeeds
with inventory invS; used to compare degraded and fully-successful runs. -/
def discoverPatched (discover : ServerDescriptor → DiscoveryOutcome)
    (s : ServerDescriptor) (invS : ToolInventory) : ServerDescriptor → DiscoveryOutcome :=
  fun q => if q = s then DiscoveryOutcome.inventory invS else discover q

/-- Modelled from the spec (sections 3 and 4.5): the cache key is a
deterministic fingerprint over the request fields, the repository content
hash and the registry snapshot version; the hash is modelled as the hashed
data itself (deterministic and collision-free, as the spec assumes). -/
structure Fingerprint where
  request : CompositionRequest
  repoContent : DiskContent
  registryVersion : Nat
deriving DecidableEq

/-- Modelled from the spec (section 4.5): the result cache with its
hit/miss counters. -/
structure CacheState where
  entries : List (Fingerprint × CompositionResult)
  hits : Nat
  misses : Nat

/-- The empty cache. -/
def emptyCache : CacheState := ⟨[], 0, 0⟩

/-- Association-list lookup of a fingerprint among the cache entries. -/
def lookupEntry (fp : Fingerprint) : List (Fingerprint × CompositionResult) →
    Option CompositionResult
  | [] => none
  | (k, v) :: rest => if k = fp then some v else lookupEntry fp rest

/-- Modelled from the spec (section 6): the uncached composition path —
load the repository from disk and compose. -/
def composeUncached (d : DiskContent) (reg : RegistryView) (req : CompositionRequest) :
    CompositionResult :=
  compose (loadRepository d) reg req

/-- Modelled from the spec (sections 4.5 and 6): the cached composition path.
On a fingerprint hit the stored result is returned with cacheHit true and no
recomputation; on a miss the result is computed, stored and returned with
cacheHit false. -/
def composeCached (st : CacheState) (d : DiskContent) (reg : RegistryView)
    (regVersion : Nat) (req : CompositionRequest) : CompositionResult × CacheState :=
  let fp : Fingerprint := ⟨req, d, regVersion⟩
  match lookupEntry fp st.entries with
  | some r => ({ r with cacheHit := true }, { st with hits := st.hits + 1 })
  | none =>
    let r := composeUncached d reg req
    (r, { st with entries := (fp, r) :: st.entries, misses := st.misses + 1 })

/-! Binding layer, embedded from the Python sources
`src/python/prompt_composer/__init__.py` and
`src/python/system_prompt_composer/__init__.py`.  The native extension
functions the wrappers delegate to are parameters of the embedding. -/

/-- The native extension functions imported by the binding packages
(signatures only; their behaviour lives in the engine model above). -/
structure NativeBindings where
  composeWithDir : String → String → String
  composeCachedWithDir : String → String → String
  listDomainsInDir : String → List String
  listBehaviorsInDir : String → List String

/-- The built-in prompts directory, os.path.join(dirname(file), prompts). -/
def builtinPromptsDir (packageDir : String) : String := packageDir ++ "/prompts"

/-- compose_system_prompt of prompt_composer: delegates to the native
compose_system_prompt_with_prompts_dir at the built-in prompts directory. -/
def compose_system_prompt (nb : NativeBindings) (packageDir requestJson : String) : String :=
  nb.composeWithDir requestJson (builtinPromptsDir packageDir)

/-- compose_system_prompt_with_prompts_dir of prompt_composer: passes both
arguments through to the native function unmodified. -/
def compose_system_prompt_with_prompts_dir (nb : NativeBindings)
    (requestJson promptsDir : String) : String :=
  nb.composeWithDir requestJson promptsDir

/-- compose_system_prompt_cached of prompt_composer: delegates to the native
cached variant at the built-in prompts directory. -/
def compose_system_prompt_cached (nb : NativeBindings) (packageDir requestJson : String) :
    String :=
  nb.composeCachedWithDir requestJson (builtinPromptsDir packageDir)

/-- compose_system_prompt_cached_with_prompts_dir of prompt_composer: passes
both arguments through to the native cached function unmodified. -/
def compose_system_prompt_cached_with_prompts_dir (nb : NativeBindings)
    (requestJson promptsDir : String) : String :=
  nb.composeCachedWithDir requestJson promptsDir

/-- list_available_domains_in_dir, re-exported native function. -/
def list_available_domains_in_dir (nb : NativeBindings) (promptsDir : String) : List String :=
  nb.listDomainsInDir promptsDir

/-- list_available_behaviors_in_dir, re-exported native function. -/
def list_available_behaviors_in_dir (nb : NativeBindings) (promptsDir : String) : List String :=
  nb.listBehaviorsInDir promptsDir

/-- list_available_domains of prompt_composer: the _in_dir variant at the
built-in prompts directory. -/
def list_available_domains (nb : NativeBindings) (packageDir : String) : List String :=
  nb.listDomainsInDir (builtinPromptsDir packageDir)

/-- list_available_behaviors of prompt_composer: the _in_dir variant at the
built-in prompts directory. -/
def list_available_behaviors (nb : NativeBindings) (packageDir : String) : List String :=
  nb.listBehaviorsInDir (builtinPromptsDir packageDir)

/-- The __all__ export list of src/python/prompt_composer/__init__.py. -/
def promptComposerAll : List String :=
  ["compose_system_prompt",
   "compose_system_prompt_with_prompts_dir",
   "compose_system_prompt_cached",
   "compose_system_prompt_cached_with_prompts_dir",
   "refresh_server_tools",
   "list_available_domains",
   "list_available_behaviors",
   "list_available_domains_in_dir",
   "list_available_behaviors_in_dir"]

/-- The __all__ export list of src/python/system_prompt_composer/__init__.py. -/
def systemPromptComposerAll : List String :=
  ["compose_system_prompt",
   "compose_system_prompt_with_prompts_dir",
   "compose_system_prompt_cached",
   "compose_system_prompt_cached_with_prompts_dir",
   "refresh_server_tools",
   "get_status"]

/-- The exported callable names realising the six operations of the spec's
external interface (spec section 6): compose, compose_cached,
refresh_server_tools, list_domains_in_dir, list_behaviors_in_dir,
get_status. -/
def specInterfaceOps : List String :=
  ["compose_system_prompt_with_prompts_dir",
   "compose_system_prompt_cached_with_prompts_dir",
   "refresh_server_tools",
   "list_available_domains_in_dir",
   "list_available_behaviors_in_dir",
   "get_status"]

/-! Concrete sample data used to instantiate the theorems. -/

/-- A sample behavior module. -/
def mB1 : PromptModule :=
  ⟨"behaviors/plan.md", ModuleKind.behavior, ⟨[], Complexity.low, [], []⟩, 1, "Plan ahead."⟩

/-- A sample domain module gated on the fs capability tag. -/
def mD1 : PromptModule :=
  ⟨"domains/fs.md", ModuleKind.domain, ⟨[], Complexity.low, ["fs"], []⟩, 1, "Use the file tools."⟩

/-- A sample composition request. -/
def reqSample : CompositionRequest := ⟨"fix a typo", [], []⟩

/-- A sample filesystem server. -/
def srvA : ServerDescriptor := ⟨"fs", "npx", ["server-fs"]⟩

/-- A sample web server. -/
def srvB : ServerDescriptor := ⟨"web", "npx", ["server-web"]⟩

/-- The sample inventory discovered from srvA. -/
def invA : ToolInventory := [("read_file", ["fs"])]

/-- A sample discovery oracle: srvA succeeds, every other server times
out. -/
def discSample : ServerDescriptor → DiscoveryOutcome :=
  fun q => if q = srvA then DiscoveryOutcome.inventory invA else DiscoveryOutcome.absentTimeout

/-- A well-formed domain module file. -/
def goodDomainFile : String × String :=
  ("domains/fs.md", "priority: 2\ntags: fs\n\nUse the filesystem tools.")

/-- A malformed behavior module file (non-numeric priority). -/
def badBehaviorFile : String × String := ("behaviors/broken.md", "priority: oops\n\nBody.")

/-- A well-formed behavior module file. -/
def goodBehaviorFile : String × String := ("behaviors/plan.md", "priority: 1\n\nPlan first.")

/-- A sample prompts directory content. -/
def diskA : DiskContent := ⟨[goodDomainFile], [goodBehaviorFile]⟩

/-- The same directory with one file changed. -/
def diskB : DiskContent := ⟨[goodDomainFile], []⟩

/-- The pairwise ordering contract of spec section 4.3 step 3: a
Behavior-kind module never follows a Domain-kind module, priorities ascend
within a kind, and priority ties are broken by path. -/
def orderRel (a b : PromptModule) : Prop :=
  (a.kind = ModuleKind.domain → b.kind = ModuleKind.domain) ∧
  (a.kind = b.kind → a.priority ≤ b.priority) ∧
  (a.kind = b.kind → a.priority = b.priority → a.path ≤ b.path)

/-! Helper lemmas. -/

/-- Equal sort keys force equal kind ranks, priorities and paths. -/
lemma moduleKey_inj_fields {a b : PromptModule} (h : moduleKey a = moduleKey b) :
    kindRank a.kind = kindRank b.kind ∧ a.priority = b.priority ∧ a.path = b.path := by
  unfold moduleKey at h
  have h1 := toLex_inj.mp h
  have h2 := congrArg Prod.fst h1
  have h3 := toLex_inj.mp (congrArg Prod.snd h1)
  exact ⟨h2, congrArg Prod.fst h3, congrArg Prod.snd h3⟩

/-- The selector's ordering is antisymmetric up to module path. -/
lemma moduleLE_antisymm_path {a b : PromptModule} (h : moduleLE a b) (h' : moduleLE b a) :
    a.path = b.path :=
  (moduleKey_inj_fields (le_antisymm h h')).2.2

/-- Two sorted lists that are permutations of each other are equal, provided
the order is antisymmetric on the members of the first list. -/
lemma sorted_perm_eq {α : Type} {r : α → α → Prop} :
    ∀ {l₁ l₂ : List α}, l₁.Perm l₂ → l₁.Sorted r → l₂.Sorted r →
      (∀ a ∈ l₁, ∀ b ∈ l₁, r a b → r b a → a = b) → l₁ = l₂
  | [], l₂, hp, _, _, _ => hp.nil_eq
  | a :: t₁, [], hp, _, _, _ => absurd (hp.symm.nil_eq.symm) (by simp)
  | a :: t₁, b :: t₂, hp, hs₁, hs₂, anti => by
    have hab : a = b := by
      have ha : a ∈ b :: t₂ := hp.subset (List.mem_cons_self a t₁)
      rcases List.mem_cons.mp ha with h | ha'
      · exact h
      · have hb : b ∈ a :: t₁ := hp.symm.subset (List.mem_cons_self b t₂)
        rcases List.mem_cons.mp hb with h | hb'
        · exact h.symm
        · have rab : r a b := List.rel_of_sorted_cons hs₁ b hb'
          have rba : r b a := List.rel_of_sorted_cons hs₂ a ha'
          exact anti a (List.mem_cons_self a t₁) b (List.mem_cons_of_mem a hb') rab rba
    subst hab
    have ht : t₁ = t₂ :=
      sorted_perm_eq hp.cons_inv hs₁.of_cons hs₂.of_cons
        (fun x hx y hy hxy hyx =>
          anti x (List.mem_cons_of_mem a hx) y (List.mem_cons_of_mem a hy) hxy hyx)
    rw [ht]

/-- Membership in the selector's output is membership in the snapshot plus a
true trigger evaluation. -/
lemma mem_select_iff {m : PromptModule} {snapshot : List PromptModule} {reg : RegistryView}
    {req : CompositionRequest} :
    m ∈ select snapshot reg req ↔
      m ∈ snapshot ∧
        triggers m req.userPrompt (classifyComplexity req.userPrompt) (availableTags reg)
          req.sessionState = true := by
  unfold select
  rw [(List.perm_insertionSort moduleLE _).mem_iff, List.mem_filter]

/-- The selector's output is sorted by the kind/priority/path key. -/
lemma select_sorted (snapshot : List PromptModule) (reg : RegistryView)
    (req : CompositionRequest) : (select snapshot reg req).Sorted moduleLE :=
  List.sorted_insertionSort moduleLE _

/-- The selector's output is a permutation of the triggered sublist. -/
lemma select_perm_filter (snapshot : List PromptModule) (reg : RegistryView)
    (req : CompositionRequest) :
    (select snapshot reg req).Perm
      (snapshot.filter (fun m =>
        triggers m req.userPrompt (classifyComplexity req.userPrompt) (availableTags reg)
          req.sessionState)) :=
  List.perm_insertionSort moduleLE _

/-- The selector's output is scan-order independent: permuted snapshots with
path-determined modules select equal ordered sequences. -/
lemma select_eq_of_perm {s s' : List PromptModule} (reg : RegistryView)
    (req : CompositionRequest) (hperm : s.Perm s')
    (hinj : ∀ a ∈ s, ∀ b ∈ s, a.path = b.path → a = b) :
    select s reg req = select s' reg req := by
  apply sorted_perm_eq
  · exact (select_perm_filter s reg req).trans
      ((hperm.filter _).trans (select_perm_filter s' reg req).symm)
  · exact select_sorted s reg req
  · exact select_sorted s' reg req
  · intro a ha b hb hab hba
    exact hinj a (mem_select_iff.mp ha).1 b (mem_select_iff.mp hb).1
      (moduleLE_antisymm_path hab hba)

/-- The key comparison implies the pairwise ordering contract. -/
lemma moduleLE_imp_orderRel {a b : PromptModule} (h : moduleLE a b) : orderRel a b := by
  unfold moduleLE moduleKey at h
  rcases (Prod.Lex.le_iff _ _).mp h with hlt | ⟨heq, hsnd⟩
  · refine ⟨?_, ?_, ?_⟩
    · intro hd
      cases hb : b.kind
      · rfl
      · rw [hd, hb] at hlt
        simp [kindRank] at hlt
    · intro hk
      rw [hk] at hlt
      exact absurd hlt (lt_irrefl _)
    · intro hk _
      rw [hk] at hlt
      exact absurd hlt (lt_irrefl _)
  · rcases (Prod.Lex.le_iff _ _).mp hsnd with plt | ⟨peq, ple⟩
    · refine ⟨?_, fun _ => le_of_lt plt, fun _ hpe => absurd (hpe ▸ plt) (lt_irrefl _)⟩
      intro hd
      cases hb : b.kind
      · rfl
      · rw [hd, hb] at heq
        simp [kindRank] at heq
    · refine ⟨?_, fun _ => le_of_eq peq, fun _ _ => ple⟩
      intro hd
      cases hb : b.kind
      · rfl
      · rw [hd, hb] at heq
        simp [kindRank] at heq

/-- Unfolding of the aggregated tags of a refreshed registry, one server at
a time. -/
lemma availableTags_refresh_cons (q : ServerDescriptor) (rest : List ServerDescriptor)
    (d : ServerDescriptor → DiscoveryOutcome) :
    availableTags (refresh (q :: rest) d) =
      (match outcomeInv (d q) with
       | some inv => invTags inv
       | none => []) ++ availableTags (refresh rest d) := by
  cases h : outcomeInv (d q) <;>
    simp [availableTags, refresh, h]

/-- Aggregated tags grow when every server's recorded inventory is
preserved. -/
lemma availableTags_refresh_mono (servers : List ServerDescriptor)
    (d d' : ServerDescriptor → DiscoveryOutcome)
    (h : ∀ q ∈ servers, ∀ inv, outcomeInv (d q) = some inv → outcomeInv (d' q) = some inv) :
    ∀ x ∈ availableTags (refresh servers d), x ∈ availableTags (refresh servers d') := by
  induction servers with
  | nil => intro x hx; simp [availableTags, refresh] at hx
  | cons q rest ih =>
    intro x hx
    rw [availableTags_refresh_cons] at hx ⊢
    rcases List.mem_append.mp hx with hx' | hx'
    · cases hq : outcomeInv (d q) with
      | none => rw [hq] at hx'; simp at hx'
      | some inv =>
        rw [hq] at hx'
        rw [h q (List.mem_cons_self q rest) inv hq]
        exact List.mem_append.mpr (Or.inl hx')
    · exact List.mem_append.mpr
        (Or.inr (ih (fun q' hq' => h q' (List.mem_cons_of_mem q hq')) x hx'))

/-- Trigger evaluation is monotone in the available capability tags. -/
lemma triggers_tags_mono (m : PromptModule) (up : String) (tier : Complexity)
    (st : List (String × String)) (tags tags' : List String)
    (hsub : ∀ x ∈ tags, x ∈ tags')
    (h : triggers m up tier tags st = true) : triggers m up tier tags' st = true := by
  unfold triggers at h ⊢
  simp only [Bool.and_eq_true, List.all_eq_true] at h ⊢
  refine ⟨⟨⟨h.1.1.1, h.1.1.2⟩, ?_⟩, h.2⟩
  intro t ht
  have := h.1.2 t ht
  rw [List.elem_iff] at this ⊢
  exact hsub t this

/-- Splitting of the trigger conjunction into its tag clause and the
tag-independent remainder. -/
lemma triggers_split (m : PromptModule) (up : String) (tier : Complexity)
    (st : List (String × String)) (tags : List String) :
    triggers m up tier tags st = true ↔
      ((m.trigger.keywords.isEmpty ||
          m.trigger.keywords.any (fun k => occursIn k up)) = true ∧
        m.trigger.minComplexity.rank ≤ tier.rank ∧
        (∀ c ∈ m.trigger.sessionConditions, sessionCondMet st c = true)) ∧
      (∀ t ∈ m.trigger.requiredTags, t ∈ tags) := by
  unfold triggers
  simp only [Bool.and_eq_true, List.all_eq_true, decide_eq_true_eq, List.elem_iff]
  tauto

/-- filterMap loses nothing when the function succeeds on every element. -/
lemma length_filterMap_of_isSome {α β : Type} (f : α → Option β) :
    ∀ l : List α, (∀ x ∈ l, (f x).isSome) → (l.filterMap f).length = l.length
  | [], _ => rfl
  | x :: xs, h => by
    cases hx : f x with
    | none => exact absurd (hx ▸ h x (List.mem_cons_self x xs)) (by simp)
    | some y =>
      rw [List.filterMap_cons_some hx, List.length_cons, List.length_cons,
        length_filterMap_of_isSome f xs (fun z hz => h z (List.mem_cons_of_mem x hz))]

/-- Decomposition of a string into its right-trimmed part and the dropped
all-whitespace suffix. -/
lemma trimRightStr_decomp (s : String) :
    (trimRightStr s).data ++ (s.data.reverse.takeWhile Char.isWhitespace).reverse = s.data := by
  show (s.data.reverse.dropWhile Char.isWhitespace).reverse ++
      (s.data.reverse.takeWhile Char.isWhitespace).reverse = s.data
  rw [← List.reverse_append, List.takeWhile_append_dropWhile, List.reverse_reverse]

/-- Every character dropped by the right trim is whitespace. -/
lemma trimRightStr_dropped_white (s : String) :
    ∀ c ∈ s.data.reverse.takeWhile Char.isWhitespace, c.isWhitespace = true :=
  fun _ hc => List.mem_takeWhile_imp hc

/-- A string whose last character is not whitespace is untouched by the
right trim. -/
lemma trimRightStr_eq_self (s : String) (c : Char) (hlast : s.data.reverse.head? = some c)
    (hc : c.isWhitespace = false) : trimRightStr s = s := by
  unfold trimRightStr
  cases hrev : s.data.reverse with
  | nil => rw [hrev] at hlast; simp at hlast
  | cons d t =>
    rw [hrev] at hlast
    have hd : d = c := by simpa using hlast
    rw [List.dropWhile_cons_of_neg (by rw [hd, hc]; simp)]
    rw [← hrev, List.reverse_reverse]

/-! Claim theorems. -/

/-- C10: the default-directory wrappers of the binding layer are
definitionally the _with_prompts_dir / _in_dir variants applied to the
built-in prompts directory, passing their arguments through unmodified. -/
theorem default_dir_wrappers (nb : NativeBindings) (packageDir requestJson : String) :
    compose_system_prompt nb packageDir requestJson =
        compose_system_prompt_with_prompts_dir nb requestJson (builtinPromptsDir packageDir) ∧
      compose_system_prompt_cached nb packageDir requestJson =
        compose_system_prompt_cached_with_prompts_dir nb requestJson
          (builtinPromptsDir packageDir) ∧
      list_available_domains nb packageDir =
        list_available_domains_in_dir nb (builtinPromptsDir packageDir) ∧
      list_available_behaviors nb packageDir =
        list_available_behaviors_in_dir nb (builtinPromptsDir packageDir) :=
  ⟨rfl, rfl, rfl, rfl⟩

/-- C9 counterexample: neither binding package exports all six interface
operations — prompt_composer's __all__ lacks get_status, and
system_prompt_composer's __all__ lacks the directory-listing operations. -/
theorem interface_surface_counterexample :
    ("get_status" ∈ specInterfaceOps ∧ "get_status" ∉ promptComposerAll) ∧
      ("list_available_domains_in_dir" ∈ specInterfaceOps ∧
        "list_available_domains_in_dir" ∉ systemPromptComposerAll) := by
  decide

/-- C9 (amended): every operation of the spec's external interface is
exported by at least one of the two binding packages. -/
theorem interface_surface_union :
    specInterfaceOps.all
      (fun op => promptComposerAll.contains op || systemPromptComposerAll.contains op) = true := by
  decide

/-- C1: the cached composition path agrees with the uncached path — starting
from the empty cache, the first cached call returns exactly the uncached
result, and a second cached call with unchanged inputs returns a result with
the same system prompt and modules, reports cacheHit = true, and leaves the
stored entries untouched. -/
theorem cache_correctness (d : DiskContent) (reg : RegistryView) (v : Nat)
    (req : CompositionRequest) :
    (composeCached emptyCache d reg v req).1 = composeUncached d reg req ∧
      (composeCached (composeCached emptyCache d reg v req).2 d reg v req).1.systemPrompt =
        (composeUncached d reg req).systemPrompt ∧
      (composeCached (composeCached emptyCache d reg v req).2 d reg v req).1.modulesUsed =
        (composeUncached d reg req).modulesUsed ∧
      (composeCached (composeCached emptyCache d reg v req).2 d reg v req).1.cacheHit = true ∧
      (composeCached (composeCached emptyCache d reg v req).2 d reg v req).2.entries =
        (composeCached emptyCache d reg v req).2.entries := by
  have h1 : composeCached emptyCache d reg v req =
      (composeUncached d reg req,
        { emptyCache with
            entries := [(⟨req, d, v⟩, composeUncached d reg req)]
            misses := emptyCache.misses + 1 }) := by
    simp [composeCached, emptyCache, lookupEntry]
  rw [h1]
  have hcomp : (composeUncached d reg req).cacheHit = false := by
    simp [composeUncached, compose]
  refine ⟨rfl, ?_⟩
  have h2 : lookupEntry (⟨req, d, v⟩ : Fingerprint)
      [(⟨req, d, v⟩, composeUncached d reg req)] = some (composeUncached d reg req) := by
    simp [lookupEntry]
  simp [composeCached, h2]

/-- C7: when the repository content on disk changes between two cached calls
with identical request text, the fingerprint of the second call differs from
the first, and the second call misses the cache (cacheHit = false). -/
theorem cache_miss_on_content_change (d1 d2 : DiskContent) (reg : RegistryView) (v : Nat)
    (req : CompositionRequest) (hne : d1 ≠ d2) :
    (Fingerprint.mk req d2 v ≠ Fingerprint.mk req d1 v) ∧
      (composeCached (composeCached emptyCache d1 reg v req).2 d2 reg v req).1.cacheHit =
        false := by
  have hfp : (Fingerprint.mk req d2 v : Fingerprint) ≠ Fingerprint.mk req d1 v := by
    intro h
    exact hne ((Fingerprint.mk.injEq _ _ _ _ _ _).mp h).2.1.symm
  refine ⟨hfp, ?_⟩
  have h1 : composeCached emptyCache d1 reg v req =
      (composeUncached d1 reg req,
        { emptyCache with
            entries := [(⟨req, d1, v⟩, composeUncached d1 reg req)]
            misses := emptyCache.misses + 1 }) := by
    simp [composeCached, emptyCache, lookupEntry]
  rw [h1]
  have h2 : lookupEntry (⟨req, d2, v⟩ : Fingerprint)
      [(⟨req, d1, v⟩, composeUncached d1 reg req)] = none := by
    simp [lookupEntry]
    intro h
    exact absurd (h ▸ rfl : Fingerprint.mk req d1 v = Fingerprint.mk req d2 v) hfp.symm
  simp only [composeCached, h2]
  simp [composeUncached, compose]

/-- C2: two-run determinism of compose — against an unchanged module
repository (the same module set, scanned in any order, with path-determined
identities) and unchanged registry, the composed system prompt is
byte-identical. -/
theorem compose_two_run_determinism (s s' : List PromptModule) (reg : RegistryView)
    (req : CompositionRequest) (hperm : s.Perm s')
    (hinj : ∀ a ∈ s, ∀ b ∈ s, a.path = b.path → a = b) :
    (compose s reg req).systemPrompt = (compose s' reg req).systemPrompt ∧
      compose s reg req = compose s' reg req := by
  have h : select s reg req = select s' reg req := select_eq_of_perm reg req hperm hinj
  constructor <;> simp [compose, h]

/-- C3: the selector's output satisfies the ordering contract pairwise —
Behavior-kind modules precede Domain-kind modules, priorities ascend within
a kind and ties break by path — and the output is identical for any
directory-scan order of the snapshot. -/
theorem selector_ordering (s s' : List PromptModule) (reg : RegistryView)
    (req : CompositionRequest) (hperm : s.Perm s')
    (hinj : ∀ a ∈ s, ∀ b ∈ s, a.path = b.path → a = b) :
    (select s reg req).Pairwise orderRel ∧ select s reg req = select s' reg req :=
  ⟨List.Pairwise.imp (fun h => moduleLE_imp_orderRel h) (select_sorted s reg req),
    select_eq_of_perm reg req hperm hinj⟩

/-- C8: for a snapshot with unique module identities, the selector's output
and the composition result's modulesUsed contain no duplicate identities. -/
theorem selector_no_duplicates (s : List PromptModule) (reg : RegistryView)
    (req : CompositionRequest) (hnd : (s.map PromptModule.path).Nodup) :
    ((select s reg req).map PromptModule.path).Nodup ∧
      (compose s reg req).modulesUsed.Nodup := by
  have hsub : ((s.filter (fun m =>
      triggers m req.userPrompt (classifyComplexity req.userPrompt) (availableTags reg)
        req.sessionState)).map PromptModule.path).Sublist (s.map PromptModule.path) :=
    (List.filter_sublist s).map PromptModule.path
  have h1 : ((select s reg req).map PromptModule.path).Nodup := by
    rw [List.Perm.nodup_iff ((select_perm_filter s reg req).map PromptModule.path)]
    exact List.Nodup.sublist hsub hnd
  exact ⟨h1, by simpa [compose] using h1⟩

/-- C4: the composer's render is exactly the concatenation of the selected
module bodies in order, each trimmed of trailing whitespace (a whitespace-only
suffix is dropped and a body not ending in whitespace passes through
verbatim), separated by a single blank line. -/
theorem composer_render_spec :
    (render [] = "") ∧
      (∀ m : PromptModule, render [m] = trimRightStr m.body) ∧
      (∀ (m : PromptModule) (ms : List PromptModule), ms ≠ [] →
        render (m :: ms) = trimRightStr m.body ++ "\n\n" ++ render ms) ∧
      (∀ s : String,
        (trimRightStr s).data ++ (s.data.reverse.takeWhile Char.isWhitespace).reverse =
            s.data ∧
          ∀ c ∈ s.data.reverse.takeWhile Char.isWhitespace, c.isWhitespace = true) ∧
      (∀ (s : String) (c : Char), s.data.reverse.head? = some c → c.isWhitespace = false →
        trimRightStr s = s) := by
  refine ⟨rfl, fun m => rfl, ?_,
    fun s => ⟨trimRightStr_decomp s, trimRightStr_dropped_white s⟩, trimRightStr_eq_self⟩
  intro m ms hms
  cases ms with
  | nil => exact absurd rfl hms
  | cons m2 rest => rfl

/-- C5: one unparsable file anywhere in the prompts directory — in either
the domains or the behaviors subtree — never blocks the load: the repository
loads exactly as it would without that file (the malformed module is dropped
as unavailable), every remaining valid module is loaded (the counts add up
exactly), and the load is total. -/
theorem malformed_module_isolation (k : ModuleKind) (pre post other : List (String × String))
    (bad : String × String)
    (hbad : parseModule k bad.1 bad.2 = none)
    (hpre : ∀ f ∈ pre, (parseModule k f.1 f.2).isSome)
    (hpost : ∀ f ∈ post, (parseModule k f.1 f.2).isSome)
    (hother : ∀ f ∈ other, (parseModule (otherKind k) f.1 f.2).isSome) :
    loadRepository (diskSplit k pre post other [bad]) =
        loadRepository (diskSplit k pre post other []) ∧
      (loadRepository (diskSplit k pre post other [bad])).length =
        pre.length + post.length + other.length := by
  have hmid : loadSubtree k (pre ++ [bad] ++ post) = loadSubtree k (pre ++ [] ++ post) := by
    unfold loadSubtree
    simp [List.filterMap_append, hbad]
  have l1 := length_filterMap_of_isSome
    (fun f : String × String => parseModule k f.1 f.2) pre hpre
  have l2 := length_filterMap_of_isSome
    (fun f : String × String => parseModule k f.1 f.2) post hpost
  have l3 := length_filterMap_of_isSome
    (fun f : String × String => parseModule (otherKind k) f.1 f.2) other hother
  cases k with
  | domain =>
    simp only [otherKind] at l3
    constructor
    · show loadSubtree ModuleKind.domain (pre ++ [bad] ++ post) ++
          loadSubtree ModuleKind.behavior other =
        loadSubtree ModuleKind.domain (pre ++ [] ++ post) ++
          loadSubtree ModuleKind.behavior other
      rw [hmid]
    · show (loadSubtree ModuleKind.domain (pre ++ [bad] ++ post) ++
          loadSubtree ModuleKind.behavior other).length = _
      rw [hmid]
      simp only [loadSubtree, List.filterMap_append, List.length_append, List.filterMap_nil,
        List.length_nil, l1, l2, l3]
      omega
  | behavior =>
    simp only [otherKind] at l3
    constructor
    · show loadSubtree ModuleKind.domain other ++
          loadSubtree ModuleKind.behavior (pre ++ [bad] ++ post) =
        loadSubtree ModuleKind.domain other ++
          loadSubtree ModuleKind.behavior (pre ++ [] ++ post)
      rw [hmid]
    · show (loadSubtree ModuleKind.domain other ++
          loadSubtree ModuleKind.behavior (pre ++ [bad] ++ post)).length = _
      rw [hmid]
      simp only [loadSubtree, List.filterMap_append, List.length_append, List.filterMap_nil,
        List.length_nil, l1, l2, l3]
      omega

/-- C6: a discovery failure for one server is isolated — the refreshed
registry records an absent inventory for that server only, every other
server's discovery completes with an inventory, and selection under the
degraded registry keeps exactly the modules it would keep under a successful
registry whose required capability tags are still all available, excluding
exactly those whose predicates required the failed server's tags. -/
theorem discovery_failure_isolation (servers : List ServerDescriptor)
    (discover : ServerDescriptor → DiscoveryOutcome) (s : ServerDescriptor)
    (invS : ToolInventory) (snapshot : List PromptModule) (req : CompositionRequest)
    (hfail : discover s = DiscoveryOutcome.absentTimeout ∨
      discover s = DiscoveryOutcome.absentError)
    (hothers : ∀ q ∈ servers, q ≠ s → (outcomeInv (discover q)).isSome) :
    (∀ p ∈ refresh servers discover, p.1 = s → p.2 = none) ∧
      (∀ p ∈ refresh servers discover, p.1 ≠ s → ∃ inv, p.2 = some inv) ∧
      (∀ m ∈ snapshot,
        m ∈ select snapshot (refresh servers discover) req ↔
          m ∈ select snapshot (refresh servers (discoverPatched discover s invS)) req ∧
            ∀ t ∈ m.trigger.requiredTags, t ∈ availableTags (refresh servers discover)) := by
  have hfailInv : outcomeInv (discover s) = none := by
    rcases hfail with h | h <;> simp [h, outcomeInv]
  refine ⟨?_, ?_, ?_⟩
  · intro p hp hps
    rcases List.mem_map.mp hp with ⟨q, _, rfl⟩
    show outcomeInv (discover q) = none
    rw [show q = s from hps, hfailInv]
  · intro p hp hps
    rcases List.mem_map.mp hp with ⟨q, hq, rfl⟩
    rcases Option.isSome_iff_exists.mp (hothers q hq hps) with ⟨inv, hinv⟩
    exact ⟨inv, hinv⟩
  · intro m _
    have hsub : ∀ x ∈ availableTags (refresh servers discover),
        x ∈ availableTags (refresh servers (discoverPatched discover s invS)) := by
      apply availableTags_refresh_mono
      intro q _ inv hinv
      by_cases hqs : q = s
      · rw [hqs, hfailInv] at hinv
        exact absurd hinv (by simp)
      · show outcomeInv (discoverPatched discover s invS q) = some inv
        rw [discoverPatched, if_neg hqs]
        exact hinv
    constructor
    · intro hmem
      have h1 := mem_select_iff.mp hmem
      have htags := ((triggers_split m req.userPrompt
        (classifyComplexity req.userPrompt) req.sessionState
        (availableTags (refresh servers discover))).mp h1.2).2
      exact ⟨mem_select_iff.mpr ⟨h1.1,
        triggers_tags_mono m req.userPrompt (classifyComplexity req.userPrompt)
          req.sessionState _ _ hsub h1.2⟩, htags⟩
    · rintro ⟨hmemF, htags⟩
      have h1 := mem_select_iff.mp hmemF
      refine mem_select_iff.mpr ⟨h1.1, ?_⟩
      exact (triggers_split m req.userPrompt (classifyComplexity req.userPrompt)
        req.sessionState (availableTags (refresh servers discover))).mpr
        ⟨((triggers_split m req.userPrompt (classifyComplexity req.userPrompt)
          req.sessionState
          (availableTags (refresh servers (discoverPatched discover s invS)))).mp
            h1.2).1, htags⟩

/-! Witnesses: closed instances of the hypothesis-bearing claim theorems. -/

/-- Witness for C7 at concrete changed directory contents. -/
theorem cache_miss_on_content_change_witness :
    diskA ≠ diskB ∧
      ((Fingerprint.mk reqSample diskB 0 ≠ Fingerprint.mk reqSample diskA 0) ∧
        (composeCached (composeCached emptyCache diskA [] 0 reqSample).2 diskB [] 0
            reqSample).1.cacheHit = false) :=
  ⟨by decide, cache_miss_on_content_change diskA diskB [] 0 reqSample (by decide)⟩

/-- Witness for C2 at a concretely permuted snapshot. -/
theorem compose_two_run_determinism_witness :
    List.Perm [mB1, mD1] [mD1, mB1] ∧
      ((compose [mB1, mD1] [] reqSample).systemPrompt =
          (compose [mD1, mB1] [] reqSample).systemPrompt ∧
        compose [mB1, mD1] [] reqSample = compose [mD1, mB1] [] reqSample) :=
  ⟨by decide,
    compose_two_run_determinism [mB1, mD1] [mD1, mB1] [] reqSample (by decide) (by decide)⟩

/-- Witness for C3 at a concretely permuted snapshot. -/
theorem selector_ordering_witness :
    List.Perm [mD1, mB1] [mB1, mD1] ∧
      ((select [mD1, mB1] [] reqSample).Pairwise orderRel ∧
        select [mD1, mB1] [] reqSample = select [mB1, mD1] [] reqSample) :=
  ⟨by decide, selector_ordering [mD1, mB1] [mB1, mD1] [] reqSample (by decide) (by decide)⟩

/-- Witness for C8 at a concrete duplicate-free snapshot. -/
theorem selector_no_duplicates_witness :
    ([mB1, mD1].map PromptModule.path).Nodup ∧
      (((select [mB1, mD1] [] reqSample).map PromptModule.path).Nodup ∧
        (compose [mB1, mD1] [] reqSample).modulesUsed.Nodup) :=
  ⟨by decide, selector_no_duplicates [mB1, mD1] [] reqSample (by decide)⟩

/-- Witness for C4 at a concrete module pair and a concrete string. -/
theorem composer_render_spec_witness :
    render [mB1, mD1] = trimRightStr mB1.body ++ "\n\n" ++ render [mD1] ∧
      trimRightStr "ab" = "ab" :=
  ⟨composer_render_spec.2.2.1 mB1 [mD1] (by decide),
    composer_render_spec.2.2.2.2 "ab" 'b' rfl (by decide)⟩

/-- Witness for C5 at a concrete directory whose single malformed file sits
in the behaviors subtree. -/
theorem malformed_module_isolation_witness :
    parseModule ModuleKind.behavior badBehaviorFile.1 badBehaviorFile.2 = none ∧
      (loadRepository
            (diskSplit ModuleKind.behavior [goodBehaviorFile] [] [goodDomainFile]
              [badBehaviorFile]) =
          loadRepository
            (diskSplit ModuleKind.behavior [goodBehaviorFile] [] [goodDomainFile] []) ∧
        (loadRepository
            (diskSplit ModuleKind.behavior [goodBehaviorFile] [] [goodDomainFile]
              [badBehaviorFile])).length =
          [goodBehaviorFile].length + ([] : List (String × String)).length +
            [goodDomainFile].length) :=
  ⟨by decide,
    malformed_module_isolation ModuleKind.behavior [goodBehaviorFile] [] [goodDomainFile]
      badBehaviorFile (by decide) (by decide) (by decide) (by decide)⟩

/-- Witness for C6 at a concrete server pair with one timed-out discovery. -/
theorem discovery_failure_isolation_witness :
    (discSample srvB = DiscoveryOutcome.absentTimeout ∨
        discSample srvB = DiscoveryOutcome.absentError) ∧
      ((∀ p ∈ refresh [srvA, srvB] discSample, p.1 = srvB → p.2 = none) ∧
        (∀ p ∈ refresh [srvA, srvB] discSample, p.1 ≠ srvB → ∃ inv, p.2 = some inv) ∧
        (∀ m ∈ [mD1],
          m ∈ select [mD1] (refresh [srvA, srvB] discSample) reqSample ↔
            m ∈ select [mD1]
                (refresh [srvA, srvB] (discoverPatched discSample srvB invA)) reqSample ∧
              ∀ t ∈ m.trigger.requiredTags,
                t ∈ availableTags (refresh [srvA, srvB] discSample))) :=
  ⟨by decide,
    discovery_failure_isolation [srvA, srvB] discSample srvB invA [mD1] reqSample
      (by decide) (by decide)⟩

end PromptComposer
